import Mathlib

/-!
Verification of the react-collectable collection protocol against its
source (src/index.js and the earlier variants of the same design).

The library is a promise-based form collection pipeline: a Context holds a
single registered source, a Map aggregates named child scopes into one
keyed result or a structured MapError, and decorator nodes (Status,
Debouncer, Prevalidator) compose over the same protocol.  The embedding
below renders each of these components as explicit state-passing
functions: a promise settlement becomes an `Except` outcome, the single
threaded event loop becomes a fold over an explicit event list, and the
reference identity used for stale-result suppression becomes a natural
number token.
-/

namespace Collectable

/-- Payload of the MapError class of src/index.js: the resolved-value map
for the entries that succeeded and the error map for the entries that
failed, both keyed by parameter name and kept in snapshot order. -/
structure MapError (ε α : Type) : Type where
  values : List (String × α)
  errors : List (String × ε)
deriving DecidableEq

/-- Rejection value of an aggregator collection promise: either an
arbitrary thrown value (a filter exception or rejection, propagated
unchanged) or a structured MapError. -/
inductive Rejection (ε α : Type) : Type where
  | thrown (e : ε)
  | mapErr (m : MapError ε α)
deriving DecidableEq

/-- Decidable equality of settled promise outcomes. -/
instance {ε α : Type} [DecidableEq ε] [DecidableEq α] : DecidableEq (Except ε α) := fun x y =>
  match x, y with
  | Except.ok a, Except.ok b =>
      if h : a = b then isTrue (by rw [h]) else isFalse (fun hc => h (Except.ok.inj hc))
  | Except.ok _, Except.error _ => isFalse (fun hc => Except.noConfusion hc)
  | Except.error _, Except.ok _ => isFalse (fun hc => Except.noConfusion hc)
  | Except.error a, Except.error b =>
      if h : a = b then isTrue (by rw [h]) else isFalse (fun hc => h (Except.error.inj hc))

/-- Resolved-value map built by the fan-in step of Map.collectValue in
src/index.js: the snapshot entries whose tagged outcome was a success, in
snapshot order.  A settled child outcome is an `Except` value, mirroring
the tagged pair `[ result, true ] / [ error, false ]` the source builds
before `Promise.all`. -/
def valueMapOf : List (String × Except ε α) → List (String × α)
  | [] => []
  | (n, Except.ok v) :: rest => (n, v) :: valueMapOf rest
  | (_, Except.error _) :: rest => valueMapOf rest

/-- Error map built by the same fan-in step: the snapshot entries whose
tagged outcome was a failure, in snapshot order. -/
def errorMapOf : List (String × Except ε α) → List (String × ε)
  | [] => []
  | (_, Except.ok _) :: rest => errorMapOf rest
  | (n, Except.error e) :: rest => (n, e) :: errorMapOf rest

/-- Fan-in step of Map.collectValue (src/index.js): once every snapshot
child has settled, partition the outcomes into the result map and the
error map; if the error map is non-empty throw a MapError carrying both
maps, otherwise feed the result map to the caller-supplied filter, whose
own error propagates as the rejection of the collection. -/
def mapCollectValue (children : List (String × Except ε α))
    (filter : List (String × α) → Except ε β) : Except (Rejection ε α) β :=
  let resultMap := valueMapOf children
  let errorMap := errorMapOf children
  if 0 < errorMap.length then
    Except.error (Rejection.mapErr ⟨resultMap, errorMap⟩)
  else
    match filter resultMap with
    | Except.ok v => Except.ok v
    | Except.error f => Except.error (Rejection.thrown f)

/-- In-flight state of one Map collection: the live name-to-node registry
(still mutated by mount and unmount while the collection runs), the
snapshot of per-child outcomes captured when the collection was
initiated, and the snapshot names whose child promise has not settled
yet. -/
structure MapProc (ε α : Type) : Type where
  nodeMap : List (String × Nat)
  snapshot : List (String × Except ε α)
  unsettled : List String
deriving DecidableEq

/-- Events that can occur while a Map collection is in flight: a snapshot
child settles, or the live registry is mutated by a mount or unmount. -/
inductive MapEvent : Type where
  | settle (name : String)
  | setNode (name : String) (node : Nat)
  | unsetNode (name : String) (node : Nat)
deriving DecidableEq

/-- Registry mutation setNode of the Map constructor: a duplicate name is
a fatal condition (the source throws, leaving the registry unchanged);
otherwise the entry is added. -/
def setNode (m : List (String × Nat)) (name : String) (node : Nat) :
    List (String × Nat) :=
  if m.any (fun p => p.1 = name) then m else m ++ [(name, node)]

/-- Registry mutation unsetNode of the Map constructor: the entry is
removed only if the unregistering node is still the one on record for
that name. -/
def unsetNode (m : List (String × Nat)) (name : String) (node : Nat) :
    List (String × Nat) :=
  if m.lookup name = some node then m.filter (fun p => p.1 ≠ name) else m

/-- Initiation of Map.collectValue: the name list and the child promise
list are captured from the registry at this moment; `outcomeOf` gives the
outcome each child promise will eventually settle with. -/
def initCollect (nodeMap : List (String × Nat)) (outcomeOf : Nat → Except ε α) :
    MapProc ε α :=
  ⟨nodeMap, nodeMap.map (fun p => (p.1, outcomeOf p.2)), nodeMap.map Prod.fst⟩

/-- One event of an in-flight Map collection.  A settlement removes the
name from the unsettled set; registry mutations touch only the live
registry, never the captured snapshot. -/
def mapProcStep (s : MapProc ε α) : MapEvent → MapProc ε α
  | MapEvent.settle n => ⟨s.nodeMap, s.snapshot, s.unsettled.erase n⟩
  | MapEvent.setNode n node => ⟨setNode s.nodeMap n node, s.snapshot, s.unsettled⟩
  | MapEvent.unsetNode n node => ⟨unsetNode s.nodeMap n node, s.snapshot, s.unsettled⟩

/-- Run of an in-flight Map collection over a list of events. -/
def mapProcRun (s : MapProc ε α) (evs : List MapEvent) : MapProc ε α :=
  evs.foldl mapProcStep s

/-- State reached by a Map collection initiated over `nodeMap` after the
events `evs`. -/
def mapProcFinal (nodeMap : List (String × Nat)) (outcomeOf : Nat → Except ε α)
    (evs : List MapEvent) : MapProc ε α :=
  mapProcRun (initCollect nodeMap outcomeOf) evs

/-- Outcome of an in-flight Map collection: `Promise.all` hands the
tagged outcome list to the fan-in step only once every snapshot child has
settled; before that the collection is still pending (`none`). -/
def mapProcOutcome (s : MapProc ε α) (filter : List (String × α) → Except ε β) :
    Option (Except (Rejection ε α) β) :=
  if s.unsettled.isEmpty then some (mapCollectValue s.snapshot filter) else none

/-- Context.unregisterCurrentSource of src/index.js, as a state-passing
function over the single source slot (a source is a token, `none` is an
empty slot).  The source throws when the argument is not the currently
registered source, before any mutation; an `Except.error` result
therefore leaves the slot unchanged. -/
def unregisterCurrentSource (currentSource : Option Nat) (source : Nat) :
    Except String (Option Nat) :=
  if currentSource ≠ some source then
    Except.error "unrecognized source cannot be unregistered"
  else
    Except.ok none

/-- State of the Status tracker: the collection promise currently on
record (by identity token) and the last reported input error. -/
structure StatusState (ε : Type) : Type where
  currentCollection : Option Nat
  inputError : Option ε
deriving DecidableEq

/-- Status.onPending of src/index.js: track the new collection promise
but do not clear the old error yet. -/
def statusOnPending (s : StatusState ε) (collection : Nat) : StatusState ε :=
  ⟨some collection, s.inputError⟩

/-- Status.onCompletion of src/index.js: clear the pending state and
store the settlement error only if the settled collection is still the
one on record; otherwise leave the state untouched. -/
def statusOnCompletion (s : StatusState ε) (collection : Nat) (error : Option ε) :
    StatusState ε :=
  if s.currentCollection = some collection then ⟨none, error⟩ else s

/-- Pair `(inputError, isPending)` the Status tracker exposes to its
children on every render. -/
def statusObserved (s : StatusState ε) : Option ε × Bool :=
  (s.inputError, s.currentCollection.isSome)

/-- State of one Debouncer run: the currently live timer token, the
promise ids resolved so far (one per collect call whose timer survived),
and the times at which a downstream child collection was initiated. -/
structure DebState : Type where
  currentTimeoutId : Option Nat
  resolved : List Nat
  childCollections : List Nat
deriving DecidableEq

/-- Events of a Debouncer run, each carrying its time: a collect call
(which creates a fresh timer and promise identified by the same token and
makes that timer current) or the firing of a timer. -/
inductive DebEvent : Type where
  | collect (timeoutId : Nat)
  | fire (timeoutId : Nat)
deriving DecidableEq

/-- Debouncer.collectValue of src/index.js as an event step.  A collect
call stores its fresh timer token as current.  A firing timer first
checks that it is still the current one and returns without resolving
anything otherwise; only a current timer clears the state, resolves its
promise and, in the chained continuation, initiates the downstream child
collection (recorded with the firing time). -/
def debStep (s : DebState) : Nat × DebEvent → DebState
  | (_, DebEvent.collect timeoutId) => ⟨some timeoutId, s.resolved, s.childCollections⟩
  | (t, DebEvent.fire timeoutId) =>
      if s.currentTimeoutId = some timeoutId then
        ⟨none, s.resolved ++ [timeoutId], s.childCollections ++ [t]⟩
      else s

/-- Run of a Debouncer over a time-stamped event list. -/
def debRun (s : DebState) (evs : List (Nat × DebEvent)) : DebState :=
  evs.foldl debStep s

/-- Initial Debouncer state: no live timer, nothing resolved. -/
def debInit : DebState := ⟨none, [], []⟩

/-- State of the Prevalidator: the last-seen identity token (`none` is
the null token), the stored collection promise (by identity; the
constructor stores an already-rejected placeholder, so the slot starts
non-null), and the validity flag. -/
structure PrevState : Type where
  currentValueBase : Option Nat
  currentValue : Option Nat
  isValid : Bool
deriving DecidableEq

/-- Initial Prevalidator state: null token, the rejected placeholder
promise (token 0) stored, not valid. -/
def prevInit : PrevState := ⟨none, some 0, false⟩

/-- Prevalidator.collectValue: return the most recently stored collection
reference, without any state change; a missing value is a fatal
condition. -/
def prevCollectValue (s : PrevState) : Except String Nat :=
  match s.currentValue with
  | none => Except.error "value not ready"
  | some v => Except.ok v

/-- Prevalidator.update of the source: a no-op when the incoming identity
token is non-null and equal to the last-seen one; otherwise store the
token, initiate a new child collection (`newCollection` is its fresh
identity) and clear the validity flag.  The boolean reports whether a new
child collection was initiated. -/
def prevUpdate (s : PrevState) (valueBase : Option Nat) (newCollection : Nat) :
    PrevState × Bool :=
  if valueBase ≠ none ∧ s.currentValueBase = valueBase then
    (s, false)
  else
    (⟨valueBase, some newCollection, false⟩, true)

/-- Membership in the resolved-value map is exactly success of the named
snapshot entry. -/
theorem mem_valueMapOf {ε α : Type} (children : List (String × Except ε α))
    (n : String) (v : α) :
    (n, v) ∈ valueMapOf children ↔ (n, Except.ok v) ∈ children := by
  induction children with
  | nil => simp [valueMapOf]
  | cons p rest ih =>
    obtain ⟨m, r⟩ := p
    cases r with
    | ok w => simp [valueMapOf, ih]
    | error e => simp [valueMapOf, ih]

/-- Membership in the error map is exactly failure of the named snapshot
entry. -/
theorem mem_errorMapOf {ε α : Type} (children : List (String × Except ε α))
    (n : String) (e : ε) :
    (n, e) ∈ errorMapOf children ↔ (n, Except.error e) ∈ children := by
  induction children with
  | nil => simp [errorMapOf]
  | cons p rest ih =>
    obtain ⟨m, r⟩ := p
    cases r with
    | ok w => simp [errorMapOf, ih]
    | error e0 => simp [errorMapOf, ih]

/-- The keys of the value map and the error map together are a
permutation of the snapshot name list. -/
theorem keysPartition {ε α : Type} (children : List (String × Except ε α)) :
    ((valueMapOf children).map Prod.fst ++ (errorMapOf children).map Prod.fst).Perm
      (children.map Prod.fst) := by
  induction children with
  | nil => simp [valueMapOf, errorMapOf]
  | cons p rest ih =>
    obtain ⟨m, r⟩ := p
    cases r with
    | ok w => simpa [valueMapOf, errorMapOf] using ih.cons m
    | error e =>
      simp only [valueMapOf, errorMapOf, List.map_cons]
      exact List.perm_middle.trans (ih.cons m)

/-- With unique snapshot names, the combined key list is duplicate
free. -/
theorem keysNodup {ε α : Type} (children : List (String × Except ε α))
    (h : (children.map Prod.fst).Nodup) :
    ((valueMapOf children).map Prod.fst ++ (errorMapOf children).map Prod.fst).Nodup :=
  (keysPartition children).nodup_iff.2 h

/-- With unique snapshot names, value-map keys and error-map keys are
disjoint. -/
theorem keysDisjoint {ε α : Type} (children : List (String × Except ε α))
    (h : (children.map Prod.fst).Nodup) :
    ((valueMapOf children).map Prod.fst).Disjoint
      ((errorMapOf children).map Prod.fst) :=
  (List.nodup_append.1 (keysNodup children h)).2.2

/-- A failed snapshot entry makes the error map non-empty. -/
theorem errorMapOf_ne_nil {ε α : Type} (children : List (String × Except ε α))
    (n : String) (e : ε) (hmem : (n, Except.error e) ∈ children) :
    errorMapOf children ≠ [] :=
  List.ne_nil_of_mem ((mem_errorMapOf children n e).2 hmem)

/-- When every snapshot entry succeeds the error map is empty. -/
theorem errorMapOf_eq_nil {ε α : Type} (children : List (String × Except ε α))
    (h : ∀ p ∈ children, ∃ v, p.2 = Except.ok v) : errorMapOf children = [] := by
  induction children with
  | nil => rfl
  | cons p rest ih =>
    obtain ⟨m, r⟩ := p
    obtain ⟨v, hv⟩ := h (m, r) (List.mem_cons_self _ _)
    have hr : r = Except.ok v := hv
    subst hr
    simpa [errorMapOf] using ih (fun q hq => h q (List.mem_cons_of_mem _ hq))

/-- C1: when at least one snapshot child of the Aggregator rejects,
collect rejects with a MapError whose value map holds exactly the
succeeded names with their resolved values and whose error map holds
exactly the failed names with their errors; no failed name appears in the
value map, and the caller-supplied filter is never consulted (the outcome
is identical for every filter). -/
theorem map_collect_partial_failure {ε α β : Type}
    (children : List (String × Except ε α))
    (hnodup : (children.map Prod.fst).Nodup)
    (hfail : ∃ n e, (n, Except.error e) ∈ children) :
    (∀ filter : List (String × α) → Except ε β,
        mapCollectValue children filter =
          Except.error (Rejection.mapErr ⟨valueMapOf children, errorMapOf children⟩)) ∧
    (∀ n v, (n, v) ∈ valueMapOf children ↔ (n, Except.ok v) ∈ children) ∧
    (∀ n e, (n, e) ∈ errorMapOf children ↔ (n, Except.error e) ∈ children) ∧
    (∀ n, n ∈ (errorMapOf children).map Prod.fst →
        n ∉ (valueMapOf children).map Prod.fst) := by
  obtain ⟨n0, e0, hmem⟩ := hfail
  have hne : errorMapOf children ≠ [] := errorMapOf_ne_nil children n0 e0 hmem
  have hlen : 0 < (errorMapOf children).length := List.length_pos.2 hne
  refine ⟨?_, fun n v => mem_valueMapOf children n v,
    fun n e => mem_errorMapOf children n e, ?_⟩
  · intro filter
    simp only [mapCollectValue, if_pos hlen]
  · intro n hn hv
    exact keysDisjoint children hnodup hv hn

/-- Witness for C1 at a concrete two-child snapshot, one success and one
failure. -/
theorem map_collect_partial_failure_witness :
    mapCollectValue [("a", Except.ok 1), ("b", (Except.error 2 : Except Nat Nat))]
        (fun m => Except.ok m.length) =
      Except.error (Rejection.mapErr ⟨[("a", 1)], [("b", 2)]⟩) :=
  (map_collect_partial_failure [("a", Except.ok 1), ("b", Except.error 2)]
    (by decide) ⟨"b", 2, by decide⟩).1 (fun m => Except.ok m.length)

/-- C7: when every snapshot child resolves, an exception F raised by the
caller-supplied filter (or the rejection F of the promise it returns)
becomes the rejection of collect itself, exactly F, not wrapped into a
MapError or any other kind. -/
theorem map_collect_filter_error {ε α β : Type}
    (children : List (String × Except ε α))
    (filter : List (String × α) → Except ε β) (F : ε)
    (hok : ∀ p ∈ children, ∃ v, p.2 = Except.ok v)
    (hf : filter (valueMapOf children) = Except.error F) :
    mapCollectValue children filter = Except.error (Rejection.thrown F) := by
  have hemp : errorMapOf children = [] := errorMapOf_eq_nil children hok
  simp [mapCollectValue, hemp, hf]

/-- Witness for C7 at a concrete one-child snapshot with a throwing
filter. -/
theorem map_collect_filter_error_witness :
    mapCollectValue [("a", (Except.ok 1 : Except Nat Nat))]
        (fun _ => (Except.error 7 : Except Nat Nat)) =
      Except.error (Rejection.thrown 7) :=
  map_collect_filter_error [("a", Except.ok 1)] (fun _ => Except.error 7) 7
    (by simp) rfl

/-- One in-flight event never changes the captured snapshot. -/
theorem mapProcStep_snapshot {ε α : Type} (s : MapProc ε α) (ev : MapEvent) :
    (mapProcStep s ev).snapshot = s.snapshot := by
  cases ev <;> rfl

/-- No sequence of in-flight events changes the captured snapshot. -/
theorem mapProcRun_snapshot {ε α : Type} (evs : List MapEvent) (s : MapProc ε α) :
    (mapProcRun s evs).snapshot = s.snapshot := by
  induction evs generalizing s with
  | nil => rfl
  | cons ev rest ih => exact (ih (mapProcStep s ev)).trans (mapProcStep_snapshot s ev)

/-- C2: for a Map collection, with the snapshot taken at initiation, the
outcome exists exactly when every snapshot child has settled (one
rejected child never short-circuits the wait for the others), and the
keys of the final value map and error map are disjoint with union a
permutation of the snapshot name set — whatever registry mutations
happen mid-flight, since the snapshot is invariant under them. -/
theorem map_collect_snapshot_semantics {ε α β : Type}
    (nodeMap : List (String × Nat)) (outcomeOf : Nat → Except ε α)
    (filter : List (String × α) → Except ε β) (evs : List MapEvent)
    (hnodup : (nodeMap.map Prod.fst).Nodup) :
    ((mapProcFinal nodeMap outcomeOf evs).snapshot
        = nodeMap.map (fun p => (p.1, outcomeOf p.2))) ∧
    ((mapProcOutcome (mapProcFinal nodeMap outcomeOf evs) filter).isSome ↔
        (mapProcFinal nodeMap outcomeOf evs).unsettled = []) ∧
    ((valueMapOf (mapProcFinal nodeMap outcomeOf evs).snapshot).map Prod.fst ++
        (errorMapOf (mapProcFinal nodeMap outcomeOf evs).snapshot).map Prod.fst).Perm
      (nodeMap.map Prod.fst) ∧
    ((valueMapOf (mapProcFinal nodeMap outcomeOf evs).snapshot).map Prod.fst).Disjoint
      ((errorMapOf (mapProcFinal nodeMap outcomeOf evs).snapshot).map Prod.fst) := by
  have hsnap : (mapProcFinal nodeMap outcomeOf evs).snapshot
      = nodeMap.map (fun p => (p.1, outcomeOf p.2)) :=
    mapProcRun_snapshot evs (initCollect nodeMap outcomeOf)
  have hkeys : (mapProcFinal nodeMap outcomeOf evs).snapshot.map Prod.fst
      = nodeMap.map Prod.fst := by
    rw [hsnap, List.map_map]
    rfl
  refine ⟨hsnap, ?_, ?_, ?_⟩
  · cases hu : (mapProcFinal nodeMap outcomeOf evs).unsettled with
    | nil => simp [mapProcOutcome, hu]
    | cons a l => simp [mapProcOutcome, hu]
  · have hperm := keysPartition (mapProcFinal nodeMap outcomeOf evs).snapshot
    rwa [hkeys] at hperm
  · exact keysDisjoint _ (by rw [hkeys]; exact hnodup)

/-- Witness for C2: a concrete collection over two children with a
mid-flight mount and unmount interleaved between the settlements. -/
theorem map_collect_snapshot_semantics_witness :
    (([("a", 0), ("b", 1)] : List (String × Nat)).map Prod.fst).Nodup ∧
    (mapProcFinal [("a", 0), ("b", 1)]
        (fun k => if k = 0 then (Except.ok 5 : Except Nat Nat) else Except.error 9)
        [MapEvent.settle "a", MapEvent.setNode "c" 2, MapEvent.unsetNode "b" 1,
          MapEvent.settle "b"]).snapshot
      = [("a", Except.ok 5), ("b", Except.error 9)] :=
  ⟨by decide,
    (map_collect_snapshot_semantics [("a", 0), ("b", 1)]
      (fun k => if k = 0 then (Except.ok 5 : Except Nat Nat) else Except.error 9)
      (fun m => (Except.ok m.length : Except Nat Nat))
      [MapEvent.settle "a", MapEvent.setNode "c" 2, MapEvent.unsetNode "b" 1,
        MapEvent.settle "b"] (by decide)).1⟩

/-- C3 counterexample: with source 0 registered, unregistering the
different source 1 is not a silent no-op: the call does not return the
unchanged slot, it throws the unrecognized-source error. -/
theorem unregister_mismatch_counterexample :
    unregisterCurrentSource (some 0) 1 ≠ Except.ok (some 0) ∧
    unregisterCurrentSource (some 0) 1 =
      Except.error "unrecognized source cannot be unregistered" := by
  constructor
  · decide
  · decide

/-- C3 amended: unregistering any source other than the currently
registered one fails with the unrecognized-source error; the throw
happens before any mutation, so the registered source is left
unchanged. -/
theorem unregister_mismatch_throws (currentSource : Option Nat) (source : Nat)
    (h : currentSource ≠ some source) :
    unregisterCurrentSource currentSource source =
      Except.error "unrecognized source cannot be unregistered" := by
  unfold unregisterCurrentSource
  rw [if_pos h]

/-- Witness for the amended C3 at a concrete mismatched pair. -/
theorem unregister_mismatch_throws_witness :
    ((some 0 : Option Nat) ≠ some 1) ∧
    unregisterCurrentSource (some 0) 1 =
      Except.error "unrecognized source cannot be unregistered" :=
  ⟨by decide, unregister_mismatch_throws (some 0) 1 (by decide)⟩

/-- C4: when a second collection is intercepted before the first
settles, only the settlement of the collection on record updates the
observed pair; the superseded first collection settling later — whether
before or after the second settles — leaves the state unchanged
(identity comparison against the collection on record). -/
theorem status_superseded_settlement {ε : Type} (s0 : StatusState ε) (c1 c2 : Nat)
    (e1 e2 : Option ε) (h : c1 ≠ c2) :
    (statusOnCompletion (statusOnPending (statusOnPending s0 c1) c2) c1 e1 =
        statusOnPending (statusOnPending s0 c1) c2) ∧
    (statusOnCompletion (statusOnPending (statusOnPending s0 c1) c2) c2 e2 =
        ⟨none, e2⟩) ∧
    (statusObserved
        (statusOnCompletion (statusOnPending (statusOnPending s0 c1) c2) c2 e2) =
        (e2, false)) ∧
    (statusOnCompletion
        (statusOnCompletion (statusOnPending (statusOnPending s0 c1) c2) c2 e2) c1 e1 =
        ⟨none, e2⟩) := by
  refine ⟨?_, ?_, ?_, ?_⟩ <;>
    simp [statusOnPending, statusOnCompletion, statusObserved, h, Ne.symm h]

/-- Witness for C4 with collections 1 and 2 and error payloads. -/
theorem status_superseded_settlement_witness :
    (1 ≠ 2) ∧
    statusObserved
        (statusOnCompletion
          (statusOnPending (statusOnPending (⟨none, none⟩ : StatusState Nat) 1) 2)
          2 (some 4)) = (some 4, false) :=
  ⟨by decide,
    (status_superseded_settlement ⟨none, none⟩ 1 2 (some 3) (some 4) (by decide)).2.2.1⟩

/-- C10: intercepting a new collection changes only the tracked
current-collection reference; the previously exposed error stays in
place, survives settlements of superseded collections, and is replaced
exactly when the new collection itself settles. -/
theorem status_pending_preserves_error {ε : Type} (s : StatusState ε) (c c2 : Nat)
    (e : Option ε) (h : c2 ≠ c) :
    ((statusOnPending s c).inputError = s.inputError) ∧
    ((statusOnPending s c).currentCollection = some c) ∧
    (statusObserved (statusOnPending s c) = (s.inputError, true)) ∧
    (statusOnCompletion (statusOnPending s c) c2 e = statusOnPending s c) ∧
    ((statusOnCompletion (statusOnPending s c) c e).inputError = e) := by
  refine ⟨rfl, rfl, rfl, ?_, ?_⟩ <;>
    simp [statusOnPending, statusOnCompletion, h, Ne.symm h]

/-- Witness for C10 with a retained old error. -/
theorem status_pending_preserves_error_witness :
    (2 ≠ 1) ∧
    statusObserved (statusOnPending (⟨none, some 7⟩ : StatusState Nat) 1) =
      (some 7, true) :=
  ⟨by decide,
    (status_pending_preserves_error ⟨none, some 7⟩ 1 2 none (by decide)).2.2.1⟩

/-- Unfolding equation for a Debouncer run. -/
theorem debRun_cons (s : DebState) (ev : Nat × DebEvent)
    (evs : List (Nat × DebEvent)) :
    debRun s (ev :: evs) = debRun (debStep s ev) evs := rfl

/-- C5: two collect calls within the debounce window produce exactly one
downstream child collection, initiated delayMs after the second call;
the superseded first timer fires as a no-op.  The chain conjunct records
that the listed events are in time order under the stated hypotheses. -/
theorem debouncer_coalesces (t1 t2 d : Nat) (h1 : t1 ≤ t2) (h2 : t2 < t1 + d) :
    List.Chain' (fun a b => a ≤ b) [t1, t2, t1 + d, t2 + d] ∧
    debRun debInit [(t1, DebEvent.collect 1), (t2, DebEvent.collect 2),
        (t1 + d, DebEvent.fire 1), (t2 + d, DebEvent.fire 2)] =
      ⟨none, [2], [t2 + d]⟩ := by
  refine ⟨?_, ?_⟩
  · simp only [List.chain'_cons, List.chain'_singleton, and_true]
    omega
  · simp [debRun, debInit, debStep]

/-- Witness for C5 with calls at times 0 and 1 and a delay of 5. -/
theorem debouncer_coalesces_witness :
    (0 ≤ 1 ∧ 1 < 0 + 5) ∧
    debRun debInit [(0, DebEvent.collect 1), (1, DebEvent.collect 2),
        (0 + 5, DebEvent.fire 1), (1 + 5, DebEvent.fire 2)] = ⟨none, [2], [1 + 5]⟩ :=
  ⟨⟨by decide, by decide⟩, (debouncer_coalesces 0 1 5 (by decide) (by decide)).2⟩

/-- A timer and promise token that is not current, is not yet resolved
and is never re-created by a collect call stays unresolved through any
further events, and never becomes current again. -/
theorem debRun_stale_not_resolved (s : DebState) (evs : List (Nat × DebEvent))
    (i : Nat) (hcur : s.currentTimeoutId ≠ some i) (hres : i ∉ s.resolved)
    (hevs : DebEvent.collect i ∉ evs.map Prod.snd) :
    (debRun s evs).currentTimeoutId ≠ some i ∧ i ∉ (debRun s evs).resolved := by
  induction evs generalizing s with
  | nil => exact ⟨hcur, hres⟩
  | cons ev rest ih =>
    obtain ⟨t, e⟩ := ev
    simp only [List.map_cons, List.mem_cons] at hevs
    push_neg at hevs
    obtain ⟨hne, hrest⟩ := hevs
    rw [debRun_cons]
    cases e with
    | collect j =>
      refine ih ⟨some j, s.resolved, s.childCollections⟩ ?_ hres hrest
      intro hj
      have hj2 : j = i := Option.some.inj hj
      exact hne (by rw [hj2])
    | fire j =>
      by_cases hcj : s.currentTimeoutId = some j
      · have hji : j ≠ i := by
          intro hj
          rw [hj] at hcj
          exact hcur hcj
        have hstep : debStep s (t, DebEvent.fire j) =
            ⟨none, s.resolved ++ [j], s.childCollections ++ [t]⟩ := by
          simp [debStep, hcj]
        rw [hstep]
        refine ih _ (fun hc => Option.noConfusion hc) ?_ hrest
        intro hmem
        rcases List.mem_append.1 hmem with hm | hm
        · exact hres hm
        · exact hji (List.mem_singleton.1 hm).symm
      · have hstep : debStep s (t, DebEvent.fire j) = s := by
          simp [debStep, hcj]
        rw [hstep]
        exact ih s hcur hres hrest

/-- C9: the promise of a collect call superseded by a later collect
before its timer fires never settles: the stale timer firing is a no-op,
no later event resolves it (collect calls create fresh timer and promise
tokens, and the executor resolves only from its own timer callback), and
nothing ever rejects it — a caller awaiting it waits forever. -/
theorem debouncer_superseded_never_settles (t1 t2 : Nat)
    (evs : List (Nat × DebEvent))
    (hevs : DebEvent.collect 1 ∉ evs.map Prod.snd) :
    1 ∉ (debRun debInit
        ((t1, DebEvent.collect 1) :: (t2, DebEvent.collect 2) :: evs)).resolved := by
  rw [debRun_cons, debRun_cons]
  exact (debRun_stale_not_resolved ⟨some 2, [], []⟩ evs 1 (by decide)
    (by decide) hevs).2

/-- Witness for C9: both timers fire after the two calls; the first
promise is still unresolved at the end. -/
theorem debouncer_superseded_never_settles_witness :
    (DebEvent.collect 1 ∉ ([(5, DebEvent.fire 1), (6, DebEvent.fire 2)].map Prod.snd)) ∧
    1 ∉ (debRun debInit [(0, DebEvent.collect 1), (1, DebEvent.collect 2),
        (5, DebEvent.fire 1), (6, DebEvent.fire 2)]).resolved :=
  ⟨by decide, debouncer_superseded_never_settles 0 1
    [(5, DebEvent.fire 1), (6, DebEvent.fire 2)] (by decide)⟩

/-- C6: updating the Prevalidator with a non-null token equal to the
last-seen one initiates no new child collection and changes no state;
updating with the null token always initiates a new collection; hence
two updates with the same non-null token trigger exactly one child
collection. -/
theorem prevalidator_update_dedup (s : PrevState) (v n1 n2 : Nat)
    (h : s.currentValueBase ≠ some v) :
    ((prevUpdate s (some v) n1).2 = true) ∧
    ((prevUpdate s (some v) n1).1 = ⟨some v, some n1, false⟩) ∧
    (prevUpdate (prevUpdate s (some v) n1).1 (some v) n2 =
        ((prevUpdate s (some v) n1).1, false)) ∧
    ((prevUpdate s none n1).2 = true) ∧
    ((prevUpdate (prevUpdate s (some v) n1).1 none n2).2 = true) := by
  simp [prevUpdate, h]

/-- Witness for C6 from the initial Prevalidator state with token 5. -/
theorem prevalidator_update_dedup_witness :
    (prevInit.currentValueBase ≠ some 5) ∧
    ((prevUpdate prevInit (some 5) 1).2 = true) ∧
    (prevUpdate (prevUpdate prevInit (some 5) 1).1 (some 5) 2 =
        ((prevUpdate prevInit (some 5) 1).1, false)) :=
  ⟨by decide, (prevalidator_update_dedup prevInit 5 1 2 (by decide)).1,
    (prevalidator_update_dedup prevInit 5 1 2 (by decide)).2.2.1⟩

/-- C8: collect on the Prevalidator returns the stored collection
reference without any state change; an update carrying the unchanged
non-null identity token leaves the state identical, so repeated collect
calls return the identical cached future object, not a new
computation. -/
theorem prevalidator_collect_cached (s : PrevState) (x c n : Nat)
    (hx : s.currentValueBase = some x) (hc : s.currentValue = some c) :
    (prevCollectValue s = Except.ok c) ∧
    (prevUpdate s (some x) n = (s, false)) ∧
    (prevCollectValue (prevUpdate s (some x) n).1 = Except.ok c) := by
  refine ⟨?_, ?_, ?_⟩ <;> simp [prevCollectValue, prevUpdate, hx, hc]

/-- Witness for C8 at a concrete cached state. -/
theorem prevalidator_collect_cached_witness :
    ((⟨some 5, some 3, true⟩ : PrevState).currentValueBase = some 5) ∧
    prevCollectValue (prevUpdate (⟨some 5, some 3, true⟩ : PrevState) (some 5) 9).1 =
      Except.ok 3 :=
  ⟨rfl, (prevalidator_collect_cached ⟨some 5, some 3, true⟩ 5 3 9 rfl rfl).2.2⟩

end Collectable
